import Mathlib

/-!
Verification development for the Oura health MCP server (`server.py`).

The Python source is shallowly embedded: pure helpers become Lean
functions; fallible Python code (code that can raise) returns
`Except PyExc`; side-effecting code additionally returns a trace of the
externally visible actions it performed (HTTP requests, token refreshes,
file writes).  JSON values are modelled by the inductive `Json`, with
numeric leaves as `Int` (the payload fields touched here are integers).
-/

/-- Python exceptions that the embedded code can raise. -/
inductive PyExc where
  | typeError
  | valueError
  | keyError (k : String)
  | attributeError
  | fileNotFound
  | jsonDecodeError
  | httpError (status : Nat) (text : String)
  | exception (msg : String)
deriving DecidableEq, Repr

/-- JSON values (Python dict/list/str/int/bool/None). Dicts are association
lists in insertion order, matching Python dict iteration order. -/
inductive Json where
  | null
  | bool (b : Bool)
  | num (n : Int)
  | str (s : String)
  | arr (xs : List Json)
  | obj (kvs : List (String × Json))

/-- Python truthiness (`bool(x)`) for the values of `Json`. -/
def pyTruthy : Json → Bool
  | .null => false
  | .bool b => b
  | .num n => n != 0
  | .str s => s != ""
  | .arr xs => !xs.isEmpty
  | .obj kvs => !kvs.isEmpty

/-- Is the value a Python dict? -/
def Json.isObj : Json → Bool
  | .obj _ => true
  | _ => false

/-- The keys of a Python dict, in insertion order (empty for non-dicts). -/
def Json.keys : Json → List String
  | .obj kvs => kvs.map (fun kv => kv.1)
  | _ => []

/-- A single-quote character, written via its code point. -/
def sqc : String := (Char.ofNat 39).toString

/-- A double-quote character, written via its code point. -/
def dqc : String := (Char.ofNat 34).toString

mutual
/-- Python `repr` of a JSON value, as used by f-string interpolation of a
dict (`f"... \x7bdata\x7d"`).  Control-character and quote escaping inside
string leaves is not modelled (the strings this program formats contain
neither). -/
def pyRepr : Json → String
  | .null => "None"
  | .bool true => "True"
  | .bool false => "False"
  | .num n => toString n
  | .str s => sqc ++ s ++ sqc
  | .arr xs => "[" ++ pyReprElems xs ++ "]"
  | .obj kvs => "\x7b" ++ pyReprFields kvs ++ "\x7d"

/-- Comma-separated `repr`s of list elements. -/
def pyReprElems : List Json → String
  | [] => ""
  | [x] => pyRepr x
  | x :: y :: xs => pyRepr x ++ ", " ++ pyReprElems (y :: xs)

/-- Comma-separated `repr`s of dict entries. -/
def pyReprFields : List (String × Json) → String
  | [] => ""
  | [(k, v)] => sqc ++ k ++ sqc ++ ": " ++ pyRepr v
  | (k, v) :: f :: xs => sqc ++ k ++ sqc ++ ": " ++ pyRepr v ++ ", " ++ pyReprFields (f :: xs)
end

mutual
/-- `json.dumps` with its default separators.  String escaping is not
modelled (tokens serialized by this program contain no specials). -/
def pyJsonDumps : Json → String
  | .null => "null"
  | .bool true => "true"
  | .bool false => "false"
  | .num n => toString n
  | .str s => dqc ++ s ++ dqc
  | .arr xs => "[" ++ pyDumpsElems xs ++ "]"
  | .obj kvs => "\x7b" ++ pyDumpsFields kvs ++ "\x7d"

/-- Comma-separated dumps of list elements. -/
def pyDumpsElems : List Json → String
  | [] => ""
  | [x] => pyJsonDumps x
  | x :: y :: xs => pyJsonDumps x ++ ", " ++ pyDumpsElems (y :: xs)

/-- Comma-separated dumps of dict entries. -/
def pyDumpsFields : List (String × Json) → String
  | [] => ""
  | [(k, v)] => dqc ++ k ++ dqc ++ ": " ++ pyJsonDumps v
  | (k, v) :: f :: xs => dqc ++ k ++ dqc ++ ": " ++ pyJsonDumps v ++ ", " ++ pyDumpsFields (f :: xs)
end

/-- Is `needle` an infix of `hay` (Python `needle in hay` on strings)? -/
def strIn : List Char → List Char → Bool
  | n, [] => n.isEmpty
  | n, c :: h => n.isPrefixOf (c :: h) || strIn n (h)

/-- Python `k in j` for a string `k`: key membership for dicts, element
equality for lists, substring for strings, `TypeError` otherwise. -/
def pyContains (k : String) (j : Json) : Except PyExc Bool :=
  match j with
  | .obj kvs => .ok (kvs.any (fun kv => kv.1 == k))
  | .arr xs => .ok (xs.any (fun x => match x with | .str s => s == k | _ => false))
  | .str s => .ok (strIn k.data s.data)
  | _ => .error .typeError

/-- Python `j[k]` for a string key: dict lookup (`KeyError` when absent),
`TypeError` on any non-dict. -/
def pySubscript (j : Json) (k : String) : Except PyExc Json :=
  match j with
  | .obj kvs =>
    match kvs.find? (fun kv => kv.1 == k) with
    | some kv => .ok kv.2
    | none => .error (.keyError k)
  | _ => .error .typeError

/-- Python `d.get(k, dflt)`: only dicts have `.get` (`AttributeError`
otherwise). -/
def pyDictGet (d : Json) (k : String) (dflt : Json) : Except PyExc Json :=
  match d with
  | .obj kvs =>
    .ok (match kvs.find? (fun kv => kv.1 == k) with
      | some kv => kv.2
      | none => dflt)
  | _ => .error .attributeError

/-- Python `for x in j` collected into a list: lists iterate elements,
strings iterate one-character strings, dicts iterate keys, anything else
raises `TypeError`. -/
def pyIterList : Json → Except PyExc (List Json)
  | .arr xs => .ok xs
  | .str s => .ok (s.data.map (fun c => .str c.toString))
  | .obj kvs => .ok (kvs.map (fun kv => .str kv.1))
  | _ => .error .typeError

/-- A Python list comprehension `[f x for x in xs]` over fallible `f`:
left-to-right, fail-fast. -/
def pyListComp (f : Json → Except PyExc Json) : List Json → Except PyExc (List Json)
  | [] => .ok []
  | x :: xs => do
    let y ← f x
    let ys ← pyListComp f xs
    pure (y :: ys)

/-! ## Calendar dates (`datetime.date`) -/

/-- A proleptic Gregorian calendar date, as `datetime.date` (year 1..9999). -/
structure PyDate where
  year : Nat
  month : Nat
  day : Nat
deriving DecidableEq, Repr

/-- Gregorian leap-year rule. -/
def isLeap (y : Nat) : Bool := (y % 4 == 0 && y % 100 != 0) || y % 400 == 0

/-- Number of days in a month of a given year. -/
def daysInMonth (y m : Nat) : Nat :=
  if m = 2 then (if isLeap y then 29 else 28)
  else if m = 4 || m = 6 || m = 9 || m = 11 then 30
  else 31

/-- Validity of a `datetime.date` triple (MINYEAR = 1, MAXYEAR = 9999). -/
def PyDate.validDate (d : PyDate) : Bool :=
  1 ≤ d.year && d.year ≤ 9999 && 1 ≤ d.month && d.month ≤ 12 &&
  1 ≤ d.day && d.day ≤ daysInMonth d.year d.month

/-- The calendar day before `d` (used to model `timedelta` subtraction). -/
def prevDay (d : PyDate) : PyDate :=
  if d.day > 1 then ⟨d.year, d.month, d.day - 1⟩
  else if d.month > 1 then ⟨d.year, d.month - 1, daysInMonth d.year (d.month - 1)⟩
  else ⟨d.year - 1, 12, 31⟩

/-- `d - timedelta(days = n)`. -/
def subDays : PyDate → Nat → PyDate
  | d, 0 => d
  | d, n + 1 => subDays (prevDay d) n

/-- Zero-pad a number to two digits. -/
def pad2 (n : Nat) : String := if n < 10 then "0" ++ toString n else toString n

/-- Zero-pad a number to four digits. -/
def pad4 (n : Nat) : String :=
  if n < 10 then "000" ++ toString n
  else if n < 100 then "00" ++ toString n
  else if n < 1000 then "0" ++ toString n
  else toString n

/-- `date.isoformat()`: `YYYY-MM-DD`. -/
def PyDate.isoformat (d : PyDate) : String :=
  pad4 d.year ++ "-" ++ pad2 d.month ++ "-" ++ pad2 d.day

/-- The value of a decimal digit character, if it is one. -/
def digitVal (c : Char) : Option Nat := if c.isDigit then some (c.toNat - 48) else none

/-- `date.fromisoformat` on a string: accepts exactly `YYYY-MM-DD` denoting a
valid calendar date, raising `ValueError` otherwise.  (Python 3.11 additionally
accepts some compact ISO spellings; every date string this program handles is
either in the canonical dashed format or invalid under both readings.) -/
def date_fromisoformat (s : String) : Except PyExc PyDate :=
  match s.data with
  | [y1, y2, y3, y4, h1, m1, m2, h2, d1, d2] =>
    if h1 = Char.ofNat 45 ∧ h2 = Char.ofNat 45 then
      match digitVal y1, digitVal y2, digitVal y3, digitVal y4,
            digitVal m1, digitVal m2, digitVal d1, digitVal d2 with
      | some a, some b, some c, some d, some e, some f, some g, some h =>
        let dt : PyDate := ⟨a * 1000 + b * 100 + c * 10 + d, e * 10 + f, g * 10 + h⟩
        if dt.validDate then .ok dt else .error .valueError
      | _, _, _, _, _, _, _, _ => .error .valueError
    else .error .valueError
  | _ => .error .valueError

/-! ## Source: URL and date helpers (`server.py`) -/

/-- `OURA_API_BASE` from the source. -/
def OURA_API_BASE : String := "https://api.ouraring.com/v2/usercollection"

/-- `get_url_from_cat`: category to URL extension, `None` when invalid. -/
def get_url_from_cat (cat : String) : Option String :=
  if cat = "readiness" then some "daily_readiness"
  else if cat = "sleep" then some "daily_sleep"
  else if cat = "activity" then some "daily_activity"
  else none

/-- `invalid_date(dt)`: calls `date.fromisoformat(dt)` inside
`try ... except ValueError`.  On `None` the call raises `TypeError`
(`fromisoformat: argument must be str`), which the `except ValueError`
clause does not catch, so it propagates. -/
def invalid_date : Option String → Except PyExc Bool
  | none => .error .typeError
  | some s =>
    match date_fromisoformat s with
    | .error _ => .ok true
    | .ok _ => .ok false

/-- `prep_dates(start_date, end_date)`: `if invalid_date(end_date) or
invalid_date(start_date)` (short-circuiting, end first) replaces both bounds
by the default range `[today - 6 days, today]`; otherwise the original
arguments are returned unchanged. -/
def prep_dates (start_date end_date : Option String) (today : PyDate) :
    Except PyExc (Option String × Option String) :=
  match invalid_date end_date with
  | .error e => .error e
  | .ok true => .ok (some (subDays today 6).isoformat, some today.isoformat)
  | .ok false =>
    match invalid_date start_date with
    | .error e => .error e
    | .ok true => .ok (some (subDays today 6).isoformat, some today.isoformat)
    | .ok false => .ok (start_date, end_date)

/-- f-string interpolation of a possibly-`None` string. -/
def fstr : Option String → String
  | some s => s
  | none => "None"

/-- `date_url(extn, start_date, end_date)`: prepares the dates and builds the
outbound metrics URL. -/
def date_url (extn : String) (start_date end_date : Option String) (today : PyDate) :
    Except PyExc String :=
  match prep_dates start_date end_date today with
  | .error e => .error e
  | .ok (s, e) =>
    .ok (OURA_API_BASE ++ "/" ++ extn ++ "?start_date=" ++ fstr s ++ "&end_date=" ++ fstr e)

/-! ## Source: JSON reshaping helpers -/

/-- The per-day dict literal built by the readiness comprehension:
`\x7b"date": day.get("day", None), "score": day.get("score", None),
"contributors": day.get("contributors", \x7b\x7d)\x7d`. -/
def readinessRow (day : Json) : Except PyExc Json := do
  pure (Json.obj [("date", ← pyDictGet day "day" .null),
                  ("score", ← pyDictGet day "score" .null),
                  ("contributors", ← pyDictGet day "contributors" (.obj []))])

/-- The per-day dict literal built by the sleep comprehension (textually the
same fields as readiness, duplicated as in the source). -/
def sleepRow (day : Json) : Except PyExc Json := do
  pure (Json.obj [("date", ← pyDictGet day "day" .null),
                  ("score", ← pyDictGet day "score" .null),
                  ("contributors", ← pyDictGet day "contributors" (.obj []))])

/-- The per-day dict literal built by the activity comprehension: the three
basic fields plus the five activity-specific ones, each via `day.get`. -/
def activityRow (day : Json) : Except PyExc Json := do
  pure (Json.obj [("date", ← pyDictGet day "day" .null),
                  ("score", ← pyDictGet day "score" .null),
                  ("contributors", ← pyDictGet day "contributors" (.obj [])),
                  ("active_calories", ← pyDictGet day "active_calories" .null),
                  ("target_calories", ← pyDictGet day "target_calories" .null),
                  ("total_calories", ← pyDictGet day "total_calories" .null),
                  ("steps", ← pyDictGet day "steps" .null),
                  ("sedentary_time", ← pyDictGet day "sedentary_time" .null)])

/-- `process_daily_readiness_to_json`: one output row per element of
`data["data"]`, in iteration order, wrapped under the key `"readiness"`. -/
def process_daily_readiness_to_json (data : Json) : Except PyExc Json :=
  match pySubscript data "data" with
  | .error e => .error e
  | .ok dl =>
    match pyIterList dl with
    | .error e => .error e
    | .ok days =>
      match pyListComp readinessRow days with
      | .error e => .error e
      | .ok rows => .ok (.obj [("readiness", .arr rows)])

/-- `process_daily_sleep_to_json`. -/
def process_daily_sleep_to_json (data : Json) : Except PyExc Json :=
  match pySubscript data "data" with
  | .error e => .error e
  | .ok dl =>
    match pyIterList dl with
    | .error e => .error e
    | .ok days =>
      match pyListComp sleepRow days with
      | .error e => .error e
      | .ok rows => .ok (.obj [("sleep", .arr rows)])

/-- `process_daily_activity_to_json`. -/
def process_daily_activity_to_json (data : Json) : Except PyExc Json :=
  match pySubscript data "data" with
  | .error e => .error e
  | .ok dl =>
    match pyIterList dl with
    | .error e => .error e
    | .ok days =>
      match pyListComp activityRow days with
      | .error e => .error e
      | .ok rows => .ok (.obj [("activity", .arr rows)])

/-- `process_daily_x_to_json`: dispatch on the category string. -/
def process_daily_x_to_json (cat : String) (data : Json) : Except PyExc Json :=
  if cat = "readiness" then process_daily_readiness_to_json data
  else if cat = "sleep" then process_daily_sleep_to_json data
  else if cat = "activity" then process_daily_activity_to_json data
  else .ok (.obj [("error", .str "invalid category provided to retrieve daily scores")])

/-! ## Source: token storage -/

/-- The token file name (`TOKEN_PATH`, relative to the module directory). -/
def TOKEN_PATH : String := "oura_token.json"

/-- Observable filesystem operations. `writeText` is `Path.write_text`: an
in-place open-truncate-write of the named file.  `renameReplace` is an atomic
`os.replace`-style rename (never performed by this program; present so that
atomic-replace behaviour is expressible). -/
inductive FsOp where
  | writeText (path contents : String)
  | renameReplace (src dst : String)
deriving DecidableEq, Repr

/-- `save_token(token)`: `TOKEN_PATH.write_text(json.dumps(token))` — a single
direct truncating write of the serialized token to the token file. -/
def save_token (token : Json) : List FsOp :=
  [.writeText TOKEN_PATH (pyJsonDumps token)]

/-- Modelled from the spec: the write pattern the spec requires of `save`
("write-to-temp-then-rename or equivalent"): the destination file is never
written in place, and it is produced by a rename onto the destination. -/
def specAtomicReplace (ops : List FsOp) (dst : String) : Bool :=
  ops.all (fun op => match op with
    | .writeText p _ => p != dst
    | _ => true) &&
  ops.any (fun op => match op with
    | .renameReplace _ d => d == dst
    | _ => false)

/-! ## Source: authenticated request helper (`sync_oura_get`) -/

/-- An HTTP response: status, raw text, and the JSON parse of the body
(`none` when `resp.json()` would raise). -/
structure HttpResp where
  status : Nat
  text : String
  body : Option Json

/-- Externally visible actions of the request/auth paths. -/
inductive Act where
  | buildUrl (url : String)
  | httpGet (url : String)
  | refreshToken
  | saveToken (t : Json)
  | postTokenExchange

/-- Number of `refreshToken` actions in a trace. -/
def numRefreshes : List Act → Nat
  | [] => 0
  | .refreshToken :: tr => numRefreshes tr + 1
  | _ :: tr => numRefreshes tr

/-- Number of `httpGet` actions in a trace. -/
def numGets : List Act → Nat
  | [] => 0
  | .httpGet _ :: tr => numGets tr + 1
  | _ :: tr => numGets tr

/-- The structured not-authenticated result of `sync_oura_get`. -/
def notAuthenticated : Json :=
  .obj [("error", .str "User not authenticated. Run get_oura_login_url first.")]

/-- The structured rate-limited result of `sync_oura_get`, carrying the raw
response text. -/
def rateLimited (msg : String) : Json :=
  .obj [("error", .str "rate_limited"), ("message", .str msg)]

/-- `resp.json()`. -/
def respJson (r : HttpResp) : Except PyExc Json :=
  match r.body with
  | some j => .ok j
  | none => .error .jsonDecodeError

/-- The tail of `sync_oura_get` applied to the response under consideration:
`if resp.status_code == 429: return rate-limited dict`, then
`resp.raise_for_status()` (raises `HTTPError` for any 4xx/5xx status), then
`return resp.json()`. -/
def finishResp (r : HttpResp) : Except PyExc Json :=
  if r.status = 429 then .ok (rateLimited r.text)
  else if 400 ≤ r.status ∧ r.status < 600 then .error (.httpError r.status r.text)
  else respJson r

/-- `sync_oura_get(url)`.  Inputs beyond the url are the environment the call
observes: the stored token (`load_token()`), the responses the network gives
to the first and (if reached) second GET of `url`, and the outcome of
`oauth.refresh_token(...)`.  Returns the Python result — `.ok` for a value
returned to the caller, `.error` for an exception escaping the helper —
paired with the trace of actions performed. -/
def sync_oura_get (url : String) (token : Option Json) (r1 r2 : HttpResp)
    (refresh : Except PyExc Json) : Except PyExc Json × List Act :=
  match token with
  | none => (.ok notAuthenticated, [])
  | some t =>
    if pyTruthy t = false then (.ok notAuthenticated, [])
    else if r1.status = 401 then
      match refresh with
      | .error e => (.error e, [.httpGet url, .refreshToken])
      | .ok newTok =>
        (finishResp r2, [.httpGet url, .refreshToken, .saveToken newTok, .httpGet url])
    else (finishResp r1, [.httpGet url])

/-! ## Source: OAuth callback -/

/-- Python `str.strip()`: drop whitespace at both ends. -/
def pyStrip (s : String) : String :=
  ⟨((s.data.dropWhile Char.isWhitespace).reverse.dropWhile Char.isWhitespace).reverse⟩

/-- Rendering of a caught exception by `str(e)` as the callback handler does.
Only the generic `Exception(msg)` cases are exercised by the claims; the
remaining renderings are representative. -/
def str_of_exc : PyExc → String
  | .exception m => m
  | .typeError => "TypeError"
  | .valueError => "ValueError"
  | .keyError k => sqc ++ k ++ sqc
  | .attributeError => "AttributeError"
  | .fileNotFound => "No such file or directory"
  | .jsonDecodeError => "Expecting value"
  | .httpError st tx => toString st ++ " Error: " ++ tx

/-- `process_oura_callback(code, state)`.  Environment: the contents of the
state file (`none` when `STATE_PATH` does not exist, making `open` raise) and
the JSON body of the provider response to the token-exchange POST (`none`
when `response.json()` would raise).  The state comparison is
`state != open(STATE_PATH).read().strip()`; a mismatch raises
`Exception("Invalid OAuth state")` before any POST is made. -/
def process_oura_callback (code state : Option String) (stateFile : Option String)
    (postBody : Option Json) : Except PyExc String × List Act :=
  match stateFile with
  | none => (.error .fileNotFound, [])
  | some content =>
    let saved := pyStrip content
    if state ≠ some saved then (.error (.exception "Invalid OAuth state"), [])
    else
      match postBody with
      | none => (.error .jsonDecodeError, [.postTokenExchange])
      | some token =>
        match pyContains "access_token" token with
        | .error e => (.error e, [.postTokenExchange])
        | .ok false =>
          (.error (.exception ("Token exchange failed: " ++ pyRepr token)),
           [.postTokenExchange])
        | .ok true =>
          (.ok "Oura authentication successful!", [.postTokenExchange, .saveToken token])

/-- The `/callback` endpoint: wraps `process_oura_callback`, returning
`{"status": msg}` on success and `{"error": str(e)}` when any exception is
caught. -/
def callback (code state : Option String) (stateFile : Option String)
    (postBody : Option Json) : Json × List Act :=
  match process_oura_callback code state stateFile postBody with
  | (.ok msg, tr) => (.obj [("status", .str msg)], tr)
  | (.error e, tr) => (.obj [("error", .str (str_of_exc e))], tr)

/-! ## Source: the daily-score tool -/

/-- The f-string wrap `f"Unable to fetch Oura daily \x7bcat\x7d summary:
\x7bdata\x7d"` (grouped right-associatively for reasoning). -/
def wrapMsg (cat : String) (data : Json) : String :=
  "Unable to fetch Oura daily " ++ (cat ++ (" summary: " ++ pyRepr data))

/-- The guard `not data or "data" not in data` of `internal_get_daily_x`
(short-circuiting: a falsy value never reaches the `in` test). -/
def pyFalsyOrNoData (data : Json) : Except PyExc Bool :=
  if pyTruthy data = false then .ok true
  else (pyContains "data" data).map (fun b => !b)

/-- The tail of `internal_get_daily_x` after the fetch: rewrap any result
without a `"data"` key into the unable-to-fetch error, otherwise reshape. -/
def internal_post_fetch (cat : String) (data : Json) : Except PyExc Json :=
  match pyFalsyOrNoData data with
  | .error e => .error e
  | .ok true => .ok (.obj [("error", .str (wrapMsg cat data))])
  | .ok false => process_daily_x_to_json cat data

/-- `internal_get_daily_x(cat, url_extn, start_date, end_date)`: builds the
dated URL, performs the authenticated GET, and post-processes. -/
def internal_get_daily_x (cat url_extn : String) (start_date end_date : Option String)
    (today : PyDate) (token : Option Json) (r1 r2 : HttpResp)
    (refresh : Except PyExc Json) : Except PyExc Json × List Act :=
  match date_url url_extn start_date end_date today with
  | .error e => (.error e, [])
  | .ok url =>
    match sync_oura_get url token r1 r2 refresh with
    | (.error e, tr) => (.error e, .buildUrl url :: tr)
    | (.ok data, tr) => (internal_post_fetch cat data, .buildUrl url :: tr)

/-- `get_oura_daily_x_score(cat, start_date, end_date)`: validates the
category (returning the invalid-category error without touching the network)
and otherwise delegates to `internal_get_daily_x`. -/
def get_oura_daily_x_score (cat : String) (start_date end_date : Option String)
    (today : PyDate) (token : Option Json) (r1 r2 : HttpResp)
    (refresh : Except PyExc Json) : Except PyExc Json × List Act :=
  match get_url_from_cat cat with
  | none =>
    (.ok (.obj [("error",
      .str ("Invalid category: " ++ cat ++ ". Choose one of readiness, sleep or activity"))]),
     [])
  | some extn => internal_get_daily_x cat extn start_date end_date today token r1 r2 refresh

/-! ## Derived closed forms and helper lemmas -/

/-- Pure closed form of `day.get(k, dflt)` on dict inputs. -/
def jfield (d : Json) (k : String) (dflt : Json) : Json :=
  match d with
  | .obj kvs =>
    (match kvs.find? (fun kv => kv.1 == k) with
      | some kv => kv.2
      | none => dflt)
  | _ => dflt

/-- Closed form of the readiness/sleep per-day row on dict inputs. -/
def dayShapeBasic (day : Json) : Json :=
  .obj [("date", jfield day "day" .null),
        ("score", jfield day "score" .null),
        ("contributors", jfield day "contributors" (.obj []))]

/-- Closed form of the activity per-day row on dict inputs. -/
def dayShapeActivity (day : Json) : Json :=
  .obj [("date", jfield day "day" .null),
        ("score", jfield day "score" .null),
        ("contributors", jfield day "contributors" (.obj [])),
        ("active_calories", jfield day "active_calories" .null),
        ("target_calories", jfield day "target_calories" .null),
        ("total_calories", jfield day "total_calories" .null),
        ("steps", jfield day "steps" .null),
        ("sedentary_time", jfield day "sedentary_time" .null)]

/-- The per-day row shape a category produces. -/
def dayShapeFor (cat : String) : Json → Json :=
  if cat = "activity" then dayShapeActivity else dayShapeBasic

/-- The fields every output record of a category carries. -/
def requiredKeysFor (cat : String) : List String :=
  if cat = "activity" then
    ["date", "score", "contributors", "active_calories", "target_calories",
     "total_calories", "steps", "sedentary_time"]
  else ["date", "score", "contributors"]

theorem invalid_date_some_ok (s : String) :
    invalid_date (some s) = .ok true ∨ invalid_date (some s) = .ok false := by
  unfold invalid_date
  cases h : date_fromisoformat s <;> simp [h]

theorem pyListComp_ok (f : Json → Except PyExc Json) (g : Json → Json) :
    ∀ xs : List Json, (∀ x ∈ xs, f x = .ok (g x)) → pyListComp f xs = .ok (xs.map g)
  | [], _ => rfl
  | x :: xs, h => by
    have hx := h x (List.mem_cons_self x xs)
    have ht := pyListComp_ok f g xs (fun y hy => h y (List.mem_cons_of_mem x hy))
    rw [pyListComp, hx, ht]
    rfl

theorem readinessRow_obj (kvs : List (String × Json)) :
    readinessRow (.obj kvs) = .ok (dayShapeBasic (.obj kvs)) := rfl

theorem sleepRow_obj (kvs : List (String × Json)) :
    sleepRow (.obj kvs) = .ok (dayShapeBasic (.obj kvs)) := rfl

theorem activityRow_obj (kvs : List (String × Json)) :
    activityRow (.obj kvs) = .ok (dayShapeActivity (.obj kvs)) := rfl

theorem strdata_append (a b : String) : (a ++ b).data = a.data ++ b.data := by
  cases a; cases b; rfl

/-- The unable-to-fetch wrap never coincides with the not-authenticated
message (they differ at the second character). -/
theorem wrapMsg_ne_notauth (cat : String) (d : Json) :
    wrapMsg cat d ≠ "User not authenticated. Run get_oura_login_url first." := by
  intro h
  have hd := congrArg String.data h
  rw [wrapMsg, strdata_append] at hd
  have h2 := congrArg (List.take 2) hd
  rw [List.take_append_eq_append_take] at h2
  have hlen : (2 : Nat) - "Unable to fetch Oura daily ".data.length = 0 := by decide
  rw [hlen, List.take_zero, List.append_nil] at h2
  exact absurd h2 (by decide)

/-! ## Claims -/

/-- C1, counterexample.  With `start_date = "2024-01-10"`, `end_date =
"2024-01-05"` (end before start, both valid ISO-8601) and today =
2024-03-15, the outbound metrics URL keeps the given (reversed) range: it is
not replaced by the default range `[2024-03-09, 2024-03-15]`, contradicting
the claim that an end-before-start range is defaulted. -/
theorem C1_cex_end_before_start_kept :
    date_url "daily_sleep" (some "2024-01-10") (some "2024-01-05") ⟨2024, 3, 15⟩ =
      .ok "https://api.ouraring.com/v2/usercollection/daily_sleep?start_date=2024-01-10&end_date=2024-01-05"
    ∧ (subDays ⟨2024, 3, 15⟩ 6).isoformat = "2024-03-09"
    ∧ PyDate.isoformat ⟨2024, 3, 15⟩ = "2024-03-15"
    ∧ ("https://api.ouraring.com/v2/usercollection/daily_sleep?start_date=2024-01-10&end_date=2024-01-05" : String) ≠
      "https://api.ouraring.com/v2/usercollection/daily_sleep?start_date=2024-03-09&end_date=2024-03-15" :=
  ⟨rfl, rfl, rfl, by decide⟩

/-- C1, amended: for string date bounds, the range in the outbound metrics
URL is replaced by the default `[today-6, today]` exactly when at least one
bound fails ISO-8601 parsing; when both parse, the range is used as given,
even if `end_date` precedes `start_date` (no reordering, no rejection). -/
theorem C1_amended_default_only_on_parse_failure (extn s e : String) (today : PyDate) :
    ((invalid_date (some e) = .ok true ∨ invalid_date (some s) = .ok true) →
      date_url extn (some s) (some e) today =
        .ok (OURA_API_BASE ++ "/" ++ extn ++ "?start_date=" ++ (subDays today 6).isoformat
             ++ "&end_date=" ++ today.isoformat))
    ∧ (invalid_date (some e) = .ok false → invalid_date (some s) = .ok false →
      date_url extn (some s) (some e) today =
        .ok (OURA_API_BASE ++ "/" ++ extn ++ "?start_date=" ++ s ++ "&end_date=" ++ e)) := by
  constructor
  · intro h
    rcases invalid_date_some_ok e with he | he
    · simp [date_url, prep_dates, he, fstr]
    · rcases h with h | h
      · rw [he] at h
        simp at h
      · simp [date_url, prep_dates, he, h, fstr]
  · intro he hs
    simp [date_url, prep_dates, he, hs, fstr]

/-- Witness for the amended C1: a malformed end bound is defaulted (today =
2024-03-15) and a valid reversed-looking pair passes through unchanged. -/
theorem C1_amended_witness :
    date_url "daily_sleep" (some "2024-01-10") (some "not-a-date") ⟨2024, 3, 15⟩ =
      .ok (OURA_API_BASE ++ "/" ++ "daily_sleep" ++ "?start_date=" ++
           (subDays ⟨2024, 3, 15⟩ 6).isoformat ++ "&end_date=" ++
           PyDate.isoformat ⟨2024, 3, 15⟩)
    ∧ date_url "daily_sleep" (some "2024-01-10") (some "2024-01-12") ⟨2024, 3, 15⟩ =
      .ok (OURA_API_BASE ++ "/" ++ "daily_sleep" ++ "?start_date=" ++ "2024-01-10"
           ++ "&end_date=" ++ "2024-01-12") :=
  ⟨(C1_amended_default_only_on_parse_failure "daily_sleep" "2024-01-10" "not-a-date"
      ⟨2024, 3, 15⟩).1 (Or.inl rfl),
   (C1_amended_default_only_on_parse_failure "daily_sleep" "2024-01-10" "2024-01-12"
      ⟨2024, 3, 15⟩).2 rfl rfl⟩

/-- C2: the claim says a missing bound (the declared `None` default) yields
the default trailing-7-day range and a normal completion.  The code instead
raises an uncaught `TypeError`: `invalid_date(None)` calls
`date.fromisoformat(None)`, which raises `TypeError`, and the surrounding
`except ValueError` clause does not catch it.  With `end_date = None` (any
`start_date`), and likewise with `start_date = None` and a well-formed
`end_date`, the daily-score tool raises instead of completing with the
default range — no URL is built and no request is made. -/
theorem C2_missing_bound_raises_typeerror :
    (∀ (sd : Option String) (today : PyDate) (token : Option Json) (r1 r2 : HttpResp)
       (refresh : Except PyExc Json),
      get_oura_daily_x_score "sleep" sd none today token r1 r2 refresh =
        (.error .typeError, []))
    ∧ (∀ (today : PyDate) (token : Option Json) (r1 r2 : HttpResp)
         (refresh : Except PyExc Json),
      get_oura_daily_x_score "sleep" none (some "2024-01-05") today token r1 r2 refresh =
        (.error .typeError, [])) :=
  ⟨fun _ _ _ _ _ _ => rfl, fun _ _ _ _ _ => rfl⟩

/-- A concrete stored token used by witnesses. -/
def tok0 : Json := .obj [("access_token", .str "atk")]

/-- A concrete 401 response used by witnesses. -/
def r401 : HttpResp := ⟨401, "unauthorized", none⟩

/-- A concrete 429 response used by witnesses. -/
def r429 : HttpResp := ⟨429, "slow down", none⟩

/-- A concrete 500 response used by witnesses. -/
def r500 : HttpResp := ⟨500, "server error", none⟩

/-- C3: with a stored (truthy) token and a first 401 whose refresh succeeds,
`sync_oura_get` performs exactly one refresh-token call and exactly two GETs
(the original plus one retry); and if the retry returns 401 again the call
terminates with the `HTTPError` for that 401 raised by
`resp.raise_for_status()` (the upstream error) — the trace still contains
exactly one refresh and two GETs, so no further refresh or retry is ever
attempted. -/
theorem C3_exactly_one_refresh_and_retry (url : String) (t nt : Json) (r1 r2 : HttpResp)
    (ht : pyTruthy t = true) (h1 : r1.status = 401) :
    numRefreshes (sync_oura_get url (some t) r1 r2 (.ok nt)).2 = 1 ∧
    numGets (sync_oura_get url (some t) r1 r2 (.ok nt)).2 = 2 ∧
    (r2.status = 401 →
      (sync_oura_get url (some t) r1 r2 (.ok nt)).1 = .error (.httpError 401 r2.text)) := by
  refine ⟨?_, ?_, ?_⟩
  · simp [sync_oura_get, ht, h1, numRefreshes]
  · simp [sync_oura_get, ht, h1, numGets]
  · intro h2
    simp [sync_oura_get, ht, h1, finishResp, h2]

/-- Witness for C3 at a concrete environment: both responses 401. -/
theorem C3_witness :
    numRefreshes (sync_oura_get "u" (some tok0) r401 r401 (.ok tok0)).2 = 1 ∧
    numGets (sync_oura_get "u" (some tok0) r401 r401 (.ok tok0)).2 = 2 ∧
    (sync_oura_get "u" (some tok0) r401 r401 (.ok tok0)).1 =
      .error (.httpError 401 "unauthorized") :=
  ⟨(C3_exactly_one_refresh_and_retry "u" tok0 tok0 r401 r401 rfl rfl).1,
   (C3_exactly_one_refresh_and_retry "u" tok0 tok0 r401 r401 rfl rfl).2.1,
   (C3_exactly_one_refresh_and_retry "u" tok0 tok0 r401 r401 rfl rfl).2.2 rfl⟩

/-- C4, counterexample.  A non-2xx status other than 401/429 (here 500) is
not returned as structured data: `resp.raise_for_status()` raises an
`HTTPError` that escapes `sync_oura_get` uncaught (`.error`, not `.ok`),
contradicting the claim that every such failure is surfaced as a structured
upstream error and that no taxonomy error propagates as an exception out of
the request helper. -/
theorem C4_cex_500_escapes_as_exception :
    sync_oura_get "u" (some tok0) r500 r401 (.ok tok0) =
      (.error (.httpError 500 "server error"), [.httpGet "u"]) := rfl

/-- C4, amended: when no (truthy) token is stored the helper returns the
structured `NotAuthenticated` dict without any network call; but a non-2xx
status other than 401 and 429 on the first GET is raised out of the helper
as an `HTTPError` exception (later converted by the host framework), not
returned as a structured dict. -/
theorem C4_amended_structured_only_notauth (url : String) (token : Option Json)
    (r1 r2 : HttpResp) (refresh : Except PyExc Json) :
    ((∀ t, token = some t → pyTruthy t = false) →
      sync_oura_get url token r1 r2 refresh = (.ok notAuthenticated, []))
    ∧ (∀ t, token = some t → pyTruthy t = true →
        400 ≤ r1.status → r1.status < 600 → r1.status ≠ 401 → r1.status ≠ 429 →
        (sync_oura_get url token r1 r2 refresh).1 = .error (.httpError r1.status r1.text)) := by
  constructor
  · intro h
    cases token with
    | none => rfl
    | some t => simp [sync_oura_get, h t rfl]
  · intro t ht htt h4 h6 hn1 hn2
    subst ht
    simp [sync_oura_get, finishResp, htt, h4, h6, hn1, hn2]

/-- Witness for the amended C4: a missing token yields the structured
not-authenticated dict; a 500 yields a raised `HTTPError`. -/
theorem C4_amended_witness :
    sync_oura_get "u" none r500 r401 (.ok tok0) = (.ok notAuthenticated, [])
    ∧ (sync_oura_get "u" (some tok0) r500 r401 (.ok tok0)).1 =
        .error (.httpError 500 "server error") :=
  ⟨(C4_amended_structured_only_notauth "u" none r500 r401 (.ok tok0)).1
      (fun t h => nomatch h),
   (C4_amended_structured_only_notauth "u" (some tok0) r500 r401 (.ok tok0)).2 tok0 rfl rfl
      (by decide) (by decide) (by decide) (by decide)⟩

/-- C5: a 429 response never triggers a refresh or a retry and always yields
the structured rate-limited dict carrying the raw response text: a first-GET
429 completes after a single GET with zero refreshes; a 429 on the
post-refresh retry also returns the rate-limited dict, with no third GET and
no second refresh (the one refresh in the trace was triggered by the 401,
before the 429 was seen). -/
theorem C5_429_no_refresh_no_retry (url : String) (t : Json) (r1 r2 : HttpResp)
    (refresh : Except PyExc Json) (ht : pyTruthy t = true) :
    (r1.status = 429 →
      sync_oura_get url (some t) r1 r2 refresh = (.ok (rateLimited r1.text), [.httpGet url]))
    ∧ (∀ nt, r1.status = 401 → refresh = .ok nt → r2.status = 429 →
      sync_oura_get url (some t) r1 r2 refresh =
        (.ok (rateLimited r2.text),
         [.httpGet url, .refreshToken, .saveToken nt, .httpGet url])) := by
  constructor
  · intro h429
    simp [sync_oura_get, ht, h429, finishResp]
  · intro nt h1 hr h2
    subst hr
    simp [sync_oura_get, ht, h1, finishResp, h2]

/-- Witness for C5: first-GET 429, and 429 on the retry after a 401. -/
theorem C5_witness :
    sync_oura_get "u" (some tok0) r429 r401 (.ok tok0) =
      (.ok (rateLimited "slow down"), [.httpGet "u"])
    ∧ sync_oura_get "u" (some tok0) r401 r429 (.ok tok0) =
      (.ok (rateLimited "slow down"),
       [.httpGet "u", .refreshToken, .saveToken tok0, .httpGet "u"]) :=
  ⟨(C5_429_no_refresh_no_retry "u" tok0 r429 r401 (.ok tok0) rfl).1 rfl,
   (C5_429_no_refresh_no_retry "u" tok0 r401 r429 (.ok tok0) rfl).2 tok0 rfl rfl rfl⟩

/-- C6: any category outside readiness/sleep/activity makes the daily-score
tool return the invalid-category error listing the three valid values, with
an empty action trace: no URL is built and no HTTP request is issued. -/
theorem C6_invalid_category_no_network (cat : String) (sd ed : Option String)
    (today : PyDate) (token : Option Json) (r1 r2 : HttpResp)
    (refresh : Except PyExc Json)
    (h1 : cat ≠ "readiness") (h2 : cat ≠ "sleep") (h3 : cat ≠ "activity") :
    get_oura_daily_x_score cat sd ed today token r1 r2 refresh =
      (.ok (.obj [("error", .str ("Invalid category: " ++ cat ++
        ". Choose one of readiness, sleep or activity"))]), []) := by
  have hu : get_url_from_cat cat = none := by
    simp [get_url_from_cat, h1, h2, h3]
  simp [get_oura_daily_x_score, hu]

/-- Witness for C6 at the category "dance". -/
theorem C6_witness :
    get_oura_daily_x_score "dance" none none ⟨2024, 3, 15⟩ none r401 r401 (.ok tok0) =
      (.ok (.obj [("error", .str ("Invalid category: " ++ "dance" ++
        ". Choose one of readiness, sleep or activity"))]), []) :=
  C6_invalid_category_no_network "dance" none none ⟨2024, 3, 15⟩ none r401 r401 (.ok tok0)
    (by decide) (by decide) (by decide)

/-- C7: an OAuth callback whose `state` differs from the (most recently)
persisted state value fails with the state-mismatch error — the handler
returns `{"error": "Invalid OAuth state"}` — and the trace is empty: no
token-exchange POST is sent, regardless of the `code` parameter.  (The
hypothesis `pyStrip p = p` records that the comparison is against the
stripped file contents; every state the program persists is a
whitespace-free URL-safe token, for which stripping is the identity.) -/
theorem C7_state_mismatch_no_exchange (code state : Option String) (p : String)
    (postBody : Option Json) (hp : pyStrip p = p) (hne : state ≠ some p) :
    callback code state (some p) postBody =
      (.obj [("error", .str "Invalid OAuth state")], []) := by
  simp [callback, process_oura_callback, hp, hne, str_of_exc]

/-- Witness for C7: a mismatched state with a well-formed code. -/
theorem C7_witness :
    callback (some "goodcode") (some "evilstate") (some "realstate") (some tok0) =
      (.obj [("error", .str "Invalid OAuth state")], []) :=
  C7_state_mismatch_no_exchange (some "goodcode") (some "evilstate") "realstate" (some tok0)
    (by decide) (by decide)

theorem process_readiness_shape (payload : Json) (recs : List Json)
    (hdata : pySubscript payload "data" = .ok (.arr recs))
    (hrecs : ∀ r ∈ recs, r.isObj = true) :
    process_daily_readiness_to_json payload =
      .ok (.obj [("readiness", .arr (recs.map dayShapeBasic))]) := by
  have hrows : pyListComp readinessRow recs = .ok (recs.map dayShapeBasic) := by
    apply pyListComp_ok
    intro day hday
    have hobj := hrecs day hday
    cases day <;> first | rfl | simp [Json.isObj] at hobj
  unfold process_daily_readiness_to_json
  rw [hdata]
  show (match pyListComp readinessRow recs with
        | .error e => (.error e : Except PyExc Json)
        | .ok rows => .ok (.obj [("readiness", .arr rows)])) = _
  rw [hrows]

theorem process_sleep_shape (payload : Json) (recs : List Json)
    (hdata : pySubscript payload "data" = .ok (.arr recs))
    (hrecs : ∀ r ∈ recs, r.isObj = true) :
    process_daily_sleep_to_json payload =
      .ok (.obj [("sleep", .arr (recs.map dayShapeBasic))]) := by
  have hrows : pyListComp sleepRow recs = .ok (recs.map dayShapeBasic) := by
    apply pyListComp_ok
    intro day hday
    have hobj := hrecs day hday
    cases day <;> first | rfl | simp [Json.isObj] at hobj
  unfold process_daily_sleep_to_json
  rw [hdata]
  show (match pyListComp sleepRow recs with
        | .error e => (.error e : Except PyExc Json)
        | .ok rows => .ok (.obj [("sleep", .arr rows)])) = _
  rw [hrows]

theorem process_activity_shape (payload : Json) (recs : List Json)
    (hdata : pySubscript payload "data" = .ok (.arr recs))
    (hrecs : ∀ r ∈ recs, r.isObj = true) :
    process_daily_activity_to_json payload =
      .ok (.obj [("activity", .arr (recs.map dayShapeActivity))]) := by
  have hrows : pyListComp activityRow recs = .ok (recs.map dayShapeActivity) := by
    apply pyListComp_ok
    intro day hday
    have hobj := hrecs day hday
    cases day <;> first | rfl | simp [Json.isObj] at hobj
  unfold process_daily_activity_to_json
  rw [hdata]
  show (match pyListComp activityRow recs with
        | .error e => (.error e : Except PyExc Json)
        | .ok rows => .ok (.obj [("activity", .arr rows)])) = _
  rw [hrows]

/-- C8: for each valid category and a payload whose `"data"` field is a list
of day-record dicts, the reshaped output is a dict keyed by the category
whose value has exactly one record per upstream day-record, in upstream
order (the i-th output record is derived from the i-th input record by the
category's row shape); and every output record carries exactly the
category's field set — fields missing upstream are still present, filled by
`day.get`'s explicit default (`None`, or `\x7b\x7d` for contributors). -/
theorem C8_reshape_one_record_per_day (cat : String) (payload : Json) (recs : List Json)
    (hcat : cat = "readiness" ∨ cat = "sleep" ∨ cat = "activity")
    (hdata : pySubscript payload "data" = .ok (.arr recs))
    (hrecs : ∀ r ∈ recs, r.isObj = true) :
    process_daily_x_to_json cat payload =
      .ok (.obj [(cat, .arr (recs.map (dayShapeFor cat)))])
    ∧ (recs.map (dayShapeFor cat)).length = recs.length
    ∧ ∀ r ∈ recs, (dayShapeFor cat r).keys = requiredKeysFor cat := by
  rcases hcat with hc | hc | hc <;> subst hc
  · exact ⟨by simpa [process_daily_x_to_json, dayShapeFor] using
        process_readiness_shape payload recs hdata hrecs,
      List.length_map recs _, fun r _ => rfl⟩
  · exact ⟨by simpa [process_daily_x_to_json, dayShapeFor] using
        process_sleep_shape payload recs hdata hrecs,
      List.length_map recs _, fun r _ => rfl⟩
  · exact ⟨by simpa [process_daily_x_to_json, dayShapeFor] using
        process_activity_shape payload recs hdata hrecs,
      List.length_map recs _, fun r _ => rfl⟩

/-- A concrete three-day sleep payload (the spec's end-to-end example, with
the third record missing its score and contributors). -/
def sleepPayload0 : Json :=
  .obj [("data", .arr
    [.obj [("day", .str "2025-01-01"), ("score", .num 80),
           ("contributors", .obj [("deep_sleep", .num 70)])],
     .obj [("day", .str "2025-01-02"), ("score", .num 81)],
     .obj [("day", .str "2025-01-03")]])]

/-- The day-records of `sleepPayload0`. -/
def sleepRecs0 : List Json :=
  [.obj [("day", .str "2025-01-01"), ("score", .num 80),
         ("contributors", .obj [("deep_sleep", .num 70)])],
   .obj [("day", .str "2025-01-02"), ("score", .num 81)],
   .obj [("day", .str "2025-01-03")]]

/-- Witness for C8: the spec's end-to-end sleep example, three records; the
key check is instantiated at the third record, which is missing its score
and contributors upstream. -/
theorem C8_witness :
    process_daily_x_to_json "sleep" sleepPayload0 =
      .ok (.obj [("sleep", .arr (sleepRecs0.map (dayShapeFor "sleep")))])
    ∧ (sleepRecs0.map (dayShapeFor "sleep")).length = sleepRecs0.length
    ∧ (dayShapeFor "sleep" (.obj [("day", .str "2025-01-03")])).keys =
        requiredKeysFor "sleep" :=
  ⟨(C8_reshape_one_record_per_day "sleep" sleepPayload0 sleepRecs0 (Or.inr (Or.inl rfl))
      rfl (by decide)).1,
   (C8_reshape_one_record_per_day "sleep" sleepPayload0 sleepRecs0 (Or.inr (Or.inl rfl))
      rfl (by decide)).2.1,
   (C8_reshape_one_record_per_day "sleep" sleepPayload0 sleepRecs0 (Or.inr (Or.inl rfl))
      rfl (by decide)).2.2 (.obj [("day", .str "2025-01-03")])
      (List.mem_cons_of_mem _ (List.mem_cons_of_mem _ (List.mem_cons_self _ _)))⟩

/-- C9, counterexample.  A concrete `save_token` call does not satisfy the
atomic-replace write pattern the claim requires: its filesystem trace writes
the token file in place (a truncating `write_text`) and contains no rename
onto the token file. -/
theorem C9_cex_save_not_atomic :
    save_token tok0 = [.writeText TOKEN_PATH (pyJsonDumps tok0)]
    ∧ specAtomicReplace (save_token tok0) TOKEN_PATH = false := ⟨rfl, rfl⟩

/-- C9, amended: every `save_token` call persists the token as a single
direct truncating `write_text` of the serialized JSON to the token file —
it never uses write-to-temp-then-rename (or any rename), so the write is
not an atomic replacement and a crash mid-write can leave a truncated
file. -/
theorem C9_amended_save_is_direct_write (t : Json) :
    save_token t = [.writeText TOKEN_PATH (pyJsonDumps t)]
    ∧ specAtomicReplace (save_token t) TOKEN_PATH = false := by
  refine ⟨rfl, ?_⟩
  simp [save_token, specAtomicReplace]

theorem any_key_eq_false (k : String) (l : List (String × Json))
    (h : ∀ kv ∈ l, kv.1 ≠ k) : (l.any fun p => p.1 == k) = false := by
  induction l with
  | nil => rfl
  | cons x xs ih =>
    have hx : x.1 ≠ k := h x (List.mem_cons_self x xs)
    have ih2 := ih (fun q hq => h q (List.mem_cons_of_mem x hq))
    simp [hx, ih2]

/-- C10: whenever the request helper hands the tool a dict without a
`"data"` key, `internal_get_daily_x` rewraps it into
`{"error": "Unable to fetch Oura daily <cat> summary: <dict>"}`; in
particular the helper's structured not-authenticated dict and rate-limited
dict are rewrapped, never returned verbatim. -/
theorem C10_structured_errors_rewrapped (cat : String) (kvs : List (String × Json))
    (hnd : ∀ kv ∈ kvs, kv.1 ≠ "data") :
    internal_post_fetch cat (.obj kvs) =
      .ok (.obj [("error", .str (wrapMsg cat (.obj kvs)))])
    ∧ internal_post_fetch cat notAuthenticated ≠ .ok notAuthenticated
    ∧ ∀ msg, internal_post_fetch cat (rateLimited msg) ≠ .ok (rateLimited msg) := by
  refine ⟨?_, ?_, ?_⟩
  · rcases kvs with _ | ⟨kv, rest⟩
    · rfl
    · have hany : ((kv :: rest).any fun p => p.1 == "data") = false :=
        any_key_eq_false "data" (kv :: rest) hnd
      have heq : pyFalsyOrNoData (.obj (kv :: rest)) = .ok true := by
        simp [pyFalsyOrNoData, pyContains, pyTruthy, List.isEmpty, hany, Except.map]
      unfold internal_post_fetch
      rw [heq]
  · have h1 : internal_post_fetch cat notAuthenticated =
        .ok (.obj [("error", .str (wrapMsg cat notAuthenticated))]) := rfl
    rw [h1]
    intro h
    simp only [Except.ok.injEq, Json.obj.injEq, List.cons.injEq, Prod.mk.injEq,
      Json.str.injEq, notAuthenticated] at h
    exact wrapMsg_ne_notauth cat notAuthenticated h.1.2
  · intro msg
    have h1 : internal_post_fetch cat (rateLimited msg) =
        .ok (.obj [("error", .str (wrapMsg cat (rateLimited msg)))]) := rfl
    rw [h1]
    intro h
    simp [rateLimited] at h

/-- Witness for C10: the helper's two structured error dicts, concretely. -/
theorem C10_witness :
    internal_post_fetch "sleep"
      (.obj [("error", .str "User not authenticated. Run get_oura_login_url first.")]) =
      .ok (.obj [("error", .str (wrapMsg "sleep"
        (.obj [("error", .str "User not authenticated. Run get_oura_login_url first.")])))])
    ∧ internal_post_fetch "sleep" notAuthenticated ≠ .ok notAuthenticated
    ∧ internal_post_fetch "sleep" (rateLimited "API rate limit exceeded") ≠
        .ok (rateLimited "API rate limit exceeded") :=
  ⟨(C10_structured_errors_rewrapped "sleep"
      [("error", .str "User not authenticated. Run get_oura_login_url first.")]
      (by decide)).1,
   (C10_structured_errors_rewrapped "sleep"
      [("error", .str "User not authenticated. Run get_oura_login_url first.")]
      (by decide)).2.1,
   (C10_structured_errors_rewrapped "sleep"
      [("error", .str "User not authenticated. Run get_oura_login_url first.")]
      (by decide)).2.2 "API rate limit exceeded"⟩
